import Mathlib

/-!
Verification of the orchestration engine of `reddit-comments-overkill.user.js`
(a userscript that bulk-deletes a user's Reddit comments by cycling sorts).

The script is shallowly embedded: DOM queries become lists of element records,
`Date.now()` becomes an explicit `Int` millisecond clock, the mutable
rate-limit globals become an explicit state record threaded through the fetch
wrapper, and the cross-reload URL-parameter cursor becomes a small record of
optional string parameters.  Asynchronous sleeps do not change modelled state
and are dropped; the `running` flag is sampled explicitly at the loop checks
where the script reads it.
-/

/-! ## Configuration constants (lines 32-41) -/

/-- Embeds `SORTS` (line 33): the fixed, ordered partition (sort) set. -/
def SORTS : List String := ["new", "hot", "top", "controversial"]

/-- Embeds `RATE_LIMIT_MAX` (line 36), in milliseconds. -/
def RATE_LIMIT_MAX : Int := 1800000

/-- Embeds `BASE_RATE_LIMIT_WAIT` (line 102), in milliseconds. -/
def BASE_RATE_LIMIT_WAIT : Int := 60000

/-- Embeds `DAYS_TO_PRESERVE` (line 41): comments from the last N days are kept. -/
def DAYS_TO_PRESERVE : Int := 10

/-- Milliseconds per day; used to model the calendar-day subtraction
`cutoffDate.setDate(cutoffDate.getDate() - DAYS_TO_PRESERVE)` (line 242)
as a fixed-length-day subtraction on the millisecond clock. -/
def MS_PER_DAY : Int := 86400000

/-- Embeds `rand(a, b)` (line 139): `Math.floor(Math.random() * (b - a + 1)) + a`.
The random draw is abstracted as an arbitrary natural `r`; the result ranges
over exactly the integers of `[a, b]`, as in the source. -/
def rand (a b r : Nat) : Nat := r % (b - a + 1) + a

/-! ## Rate-limit governor (lines 99-164) -/

/-- Embeds the three rate-limit globals `rateLimitActive`,
`lastRateLimitTime`, `rateLimitMultiplier` (lines 99-101). -/
structure RateLimitState where
  rateLimitActive : Bool
  lastRateLimitTime : Int
  rateLimitMultiplier : Int
  deriving DecidableEq

/-- The initial values of the rate-limit globals (lines 99-101):
inactive, last trigger time 0, multiplier 1. -/
def initialRateLimitState : RateLimitState :=
  { rateLimitActive := false, lastRateLimitTime := 0, rateLimitMultiplier := 1 }

/-- Embeds the `resp.status === 429` branch of the `window.fetch` monkey patch
(lines 145-155): set the active flag, record the trigger time, and double the
multiplier capped at `RATE_LIMIT_MAX / BASE_RATE_LIMIT_WAIT`. -/
def onFetch429 (now : Int) (s : RateLimitState) : RateLimitState :=
  { rateLimitActive := true
    lastRateLimitTime := now
    rateLimitMultiplier :=
      min (s.rateLimitMultiplier * 2) (RATE_LIMIT_MAX / BASE_RATE_LIMIT_WAIT) }

/-- The wait duration the 429 branch computes and logs (lines 151-152,
"setting flag for ... seconds"): it uses the multiplier value from BEFORE the
doubling on the same branch. -/
def waitLoggedOn429 (s : RateLimitState) : Int :=
  min (BASE_RATE_LIMIT_WAIT * s.rateLimitMultiplier) RATE_LIMIT_MAX

/-- Embeds the non-429 branch of the fetch monkey patch (lines 156-162):
reset the multiplier to 1, but only when it exceeds 1. -/
def onFetchOther (s : RateLimitState) : RateLimitState :=
  if s.rateLimitMultiplier > 1 then { s with rateLimitMultiplier := 1 } else s

/-- One observed fetch response: either a throttling (HTTP 429) response seen
at millisecond time `now`, or any other response. -/
inductive FetchSignal
  | throttled (now : Int)
  | success
  deriving DecidableEq

/-- Dispatches one fetch response to the matching branch of the monkey patch
(lines 143-164). -/
def applySignal (s : RateLimitState) (sig : FetchSignal) : RateLimitState :=
  match sig with
  | FetchSignal.throttled now => onFetch429 now s
  | FetchSignal.success => onFetchOther s

/-- The rate-limit state after the process observes a sequence of fetch
responses, starting from the initial globals. -/
def applySignals (sigs : List FetchSignal) : RateLimitState :=
  sigs.foldl applySignal initialRateLimitState

/-- Embeds `isRateLimited()` (lines 105-121).  Returns the boolean result and
the possibly-updated state (the function clears `rateLimitActive` once the
capped wait, computed from the CURRENT multiplier, has elapsed since the last
trigger time). -/
def isRateLimited (now : Int) (s : RateLimitState) : Bool × RateLimitState :=
  if !s.rateLimitActive then (false, s)
  else
    let timeSinceLimit := now - s.lastRateLimitTime
    let baseWait := BASE_RATE_LIMIT_WAIT * s.rateLimitMultiplier
    let cappedWait := min baseWait RATE_LIMIT_MAX
    if timeSinceLimit ≥ cappedWait then (false, { s with rateLimitActive := false })
    else (true, s)

/-! ## Date filtering and comment detection (lines 229-278) -/

/-- The result of `new Date(timeElement.getAttribute('datetime'))` (line 240):
either an Invalid Date (whose comparison with any date is false, so the
comment is not skipped; the `catch` on line 254 likewise returns false), or a
valid timestamp in milliseconds. -/
inductive DatetimeValue
  | invalid
  | valid (ms : Int)
  deriving DecidableEq

/-- A `time[datetime]` element inside a comment container (line 233). -/
structure TimeElement where
  datetime : DatetimeValue
  deriving DecidableEq

/-- A comment container element; `timeElement` is the result of
`commentElement.querySelector('time[datetime]')` (line 233). -/
structure CommentElement where
  timeElement : Option TimeElement
  deriving DecidableEq

/-- Embeds `shouldSkipCommentByDate(commentElement)` (lines 231-258) at clock
time `now`.  No time element: return false (do not skip).  Unparseable
datetime: the Invalid-Date comparison yields false (and the `catch` also
returns false).  Otherwise skip exactly when the comment is newer than
`now - DAYS_TO_PRESERVE` days. -/
def shouldSkipCommentByDate (c : CommentElement) (now : Int) : Bool :=
  match c.timeElement with
  | none => false
  | some t =>
    match t.datetime with
    | DatetimeValue.invalid => false
    | DatetimeValue.valid ms => decide (ms > now - DAYS_TO_PRESERVE * MS_PER_DAY)

/-- The ASCII-lowercased code point of a character; models the
case-insensitivity of the `/delete/i` test (line 266). -/
def lowerCode (c : Char) : Nat :=
  if 65 ≤ c.toNat ∧ c.toNat ≤ 90 then c.toNat + 32 else c.toNat

/-- Whether the first code list is a prefix of the second. -/
def natListPrefix : List Nat → List Nat → Bool
  | [], _ => true
  | _ :: _, [] => false
  | p :: ps, c :: cs => p == c && natListPrefix ps cs

/-- Whether the pattern occurs contiguously inside the code list. -/
def natListInfix (pat : List Nat) : List Nat → Bool
  | [] => natListPrefix pat []
  | c :: cs => natListPrefix pat (c :: cs) || natListInfix pat cs

/-- Case-insensitive substring test for "delete", embedding
`/delete/i.test(el.textContent)` (line 266). -/
def textContainsDelete (s : String) : Bool :=
  natListInfix ("delete".data.map lowerCode) (s.data.map lowerCode)

/-- An anchor element matched by the delete-button selector
`a[data-event-action='delete'], a.togglebutton` (line 265); `closestComment`
is the result of `deleteBtn.closest('.comment, .thing, .entry, [id^=t1_]')`
(line 270). -/
structure DeleteButton where
  textContent : String
  closestComment : Option CommentElement
  deriving DecidableEq

/-- Embeds `getDeleteButtons()` (lines 263-278) over the list of elements the
selector query returns: keep elements whose text contains "delete", then drop
those whose enclosing comment should be skipped by date; an element with no
locatable enclosing comment is kept (line 272: `return true`). -/
def getDeleteButtons (buttons : List DeleteButton) (now : Int) : List DeleteButton :=
  (buttons.filter (fun b => textContainsDelete b.textContent)).filter
    (fun b =>
      match b.closestComment with
      | none => true
      | some c => !(shouldSkipCommentByDate c now))

/-! ## Single-comment deletion (lines 305-337) -/

/-- What one attempt of the `deleteComment` retry loop encounters:
the confirmation affordance is found and clicked (`ok`), the confirmation is
absent (`noConfirm`, line 319), or an exception is thrown (`err r`, line 328,
with `r` the abstracted random draw for the cooldown). -/
inductive AttemptEnv
  | ok
  | noConfirm
  | err (r : Nat)
  deriving DecidableEq

/-- Which exit of `deleteComment` produced the result: the `return true` on
line 326 (`deleted`), the `return false` on line 321 (`skippedNoConfirmation`),
the fall-through `return false` on line 336 reached because `running` became
false (`stopped`), or fuel exhaustion of the model (the source loop can spin
forever when every attempt throws). -/
inductive DeleteExit
  | deleted
  | skippedNoConfirmation
  | stopped
  | outOfFuel
  deriving DecidableEq

/-- The observable outcome of one `deleteComment` call: the boolean the
source returns, the exit path that produced it, the number of attempts made,
and the cooldown waited after each exception, in order. -/
structure DeleteResult where
  success : Bool
  exit : DeleteExit
  attempts : Nat
  cooldowns : List Nat
  deriving DecidableEq

/-- Embeds the `while (!success && running)` loop of `deleteComment`
(lines 305-337).  `running n` samples the mutable `running` flag at the n-th
loop check; `env n` is what the n-th attempt encounters.  On an exception the
loop waits `rand(5000, 30000)` milliseconds (line 331) and retries from the
top of the loop. -/
def deleteCommentAux (running : Nat → Bool) (env : Nat → AttemptEnv) :
    Nat → Nat → List Nat → DeleteResult
  | 0, n, acc => ⟨false, DeleteExit.outOfFuel, n, acc.reverse⟩
  | fuel+1, n, acc =>
    if running n then
      match env n with
      | AttemptEnv.ok => ⟨true, DeleteExit.deleted, n + 1, acc.reverse⟩
      | AttemptEnv.noConfirm => ⟨false, DeleteExit.skippedNoConfirmation, n + 1, acc.reverse⟩
      | AttemptEnv.err r =>
        deleteCommentAux running env fuel (n + 1) (rand 5000 30000 r :: acc)
    else ⟨false, DeleteExit.stopped, n, acc.reverse⟩

/-- Embeds `deleteComment(btn)` (lines 305-337), starting at the first loop
check with no cooldowns recorded. -/
def deleteComment (running : Nat → Bool) (env : Nat → AttemptEnv) (fuel : Nat) :
    DeleteResult :=
  deleteCommentAux running env fuel 0 []

/-! ## Page processing (lines 343-432) -/

/-- The page environment one `processPage()` call observes.  `deletes` lists
the delete buttons present (after the lazy-load wait), each entry recording
whether `deleteComment` on that button returns true; `commentsPresent` is
whether `div.comment, div.comment-body, .thing.comment` matches anything
(line 357); `hasNextBtn` and `hasMore` are whether the old-reddit next-page
anchor (line 368/414) and the load-more element (line 374/422) exist. -/
structure PageEnv where
  running : Bool
  deletes : List Bool
  commentsPresent : Bool
  hasNextBtn : Bool
  hasMore : Bool
  deriving DecidableEq

/-- The observable outcome of one `processPage()` call: the boolean the
source returns (`advanced`), how many deletions succeeded, and whether
pagination (next page) or load-more was requested. -/
structure PageResult where
  advanced : Bool
  deletedCount : Nat
  paginated : Bool
  deriving DecidableEq

/-- Embeds `processPage()` (lines 343-432).  Returns false when not running
(line 344); false when neither delete buttons nor comments exist (line 358);
with comments but no delete buttons, requests next page or load-more and
returns true, else false (lines 362-383); with delete buttons, runs the
deletion loop and returns true unconditionally (line 431), requesting
pagination when available (lines 414-429). -/
def processPage (e : PageEnv) : PageResult :=
  if !e.running then ⟨false, 0, false⟩
  else if e.deletes.isEmpty && !e.commentsPresent then ⟨false, 0, false⟩
  else if e.deletes.isEmpty then
    if e.hasNextBtn then ⟨true, 0, true⟩
    else if e.hasMore then ⟨true, 0, true⟩
    else ⟨false, 0, false⟩
  else ⟨true, e.deletes.countP id, e.hasNextBtn || e.hasMore⟩

/-! ## URL-parameter cursor (lines 54-83) -/

/-- The two script-owned URL query parameters, each optionally present:
`comment_overkill_running` and `comment_overkill_sort_index`.  (Other query
parameters are untouched by the script and not modelled.) -/
structure UrlParams where
  runningParam : Option String
  sortIndexParam : Option String
  deriving DecidableEq

/-- Embeds `updateUrlState(isRunning, sortIndex)` (lines 65-83): when running,
set both parameters; otherwise delete both. -/
def updateUrlState (isRunning : Bool) (sortIndex : Nat) (p : UrlParams) : UrlParams :=
  if isRunning then
    { runningParam := some "true", sortIndexParam := some (toString sortIndex) }
  else
    { p with runningParam := none, sortIndexParam := none }

/-- Embeds `getRunningStateFromUrl()` (lines 54-57): the parameter must equal
the string "true". -/
def getRunningStateFromUrl (p : UrlParams) : Bool :=
  p.runningParam == some "true"

/-- Whether a character is a decimal digit. -/
def isDigitCode (c : Char) : Bool := 48 ≤ c.toNat && c.toNat ≤ 57

/-- The value of a list of decimal digits, most significant first. -/
def digitsVal : List Char → Nat → Nat
  | [], acc => acc
  | c :: cs, acc => digitsVal cs (acc * 10 + (c.toNat - 48))

/-- Parses a nonempty all-digit string; models `parseInt(s, 10)` on the
decimal representations of naturals, the only values the script ever stores
(anything else parses to `NaN`, which the caller maps to 0). -/
def parseNatDigits (l : List Char) : Option Nat :=
  if l.isEmpty || !(l.all isDigitCode) then none else some (digitsVal l 0)

/-- Embeds `getSortIndexFromUrl()` (lines 59-63): `parseInt` of the parameter,
with `NaN` (absent or non-numeric parameter) mapped to 0. -/
def getSortIndexFromUrl (p : UrlParams) : Nat :=
  (p.sortIndexParam.bind (fun s => parseNatDigits s.data)).getD 0

/-! ## Resume-index reconstruction (lines 504-527) -/

/-- Embeds the fallback loop of the resume branch (lines 519-525): the first
position in `activeSorts` whose original `SORTS` index is at least `k`; when
the loop never breaks, `idx` keeps its initial value 0. -/
def findActiveFromOriginal (activeSorts : List String) (k : Nat) : Nat :=
  match activeSorts.findIdx? (fun s => SORTS.indexOf s ≥ k) with
  | some i => i
  | none => 0

/-- Embeds the resume-index reconstruction in `main()` (lines 504-527): `main`
always runs with the running URL parameter set (both the modal start and the
auto-resume path write it before calling `main`), so the `isResuming` branch
is the one taken.  From the persisted `urlIdx` it computes the starting index
into `activeSorts`. -/
def resumeIdxFromUrl (activeSorts : List String) (urlIdx : Nat) : Nat :=
  if urlIdx > 0 ∧ urlIdx ≤ SORTS.length then
    let urlSort := SORTS.getD (urlIdx - 1) ""
    if activeSorts.contains urlSort then activeSorts.indexOf urlSort
    else findActiveFromOriginal activeSorts (urlIdx - 1)
  else 0

/-! ## Cross-reload controller model (lines 438-481, 489-650, 954-966)

`gotoSort` (lines 196-223) navigates by assigning `location.href`, which
reloads the page and restarts the script; the script is built around this
(URL-parameter cursor, auto-resume on load).  A "session" is one execution of
`main()` from (re)start until either a navigation ends it or all sorts
complete.  The remote listing is modelled by which sorts still have comments;
one `runSort` call on the matching sort with comments processes all its pages
(the `while` loop, lines 470-478) and returns `undefined` — falsy — so `main`
does not mark it complete (line 614); the next call finds no comments and
returns true (line 465). -/

/-- Which sorts' listings still contain deletable comments. -/
structure Remote where
  hasNew : Bool
  hasHot : Bool
  hasTop : Bool
  hasControversial : Bool
  deriving DecidableEq

/-- Whether sort `s` still has comments. -/
def Remote.has (r : Remote) (s : String) : Bool :=
  if s = "new" then r.hasNew
  else if s = "hot" then r.hasHot
  else if s = "top" then r.hasTop
  else if s = "controversial" then r.hasControversial
  else false

/-- The remote state after every comment under sort `s` has been deleted. -/
def Remote.clear (r : Remote) (s : String) : Remote :=
  if s = "new" then { r with hasNew := false }
  else if s = "hot" then { r with hasHot := false }
  else if s = "top" then { r with hasTop := false }
  else if s = "controversial" then { r with hasControversial := false }
  else r

/-- The cross-reload system state: the two persisted URL parameters (as the
values `getRunningStateFromUrl` / `getSortIndexFromUrl` read back), the
page's `sort` query parameter (what `getCurrentSort`, lines 170-194, sees),
the remote listing state, and whether the controller ever reached the
"ALL SELECTED SORTS PROCESSED" completion branch (lines 596-605, 626-635). -/
structure SysState where
  urlRunning : Bool
  urlIdx : Nat
  urlSort : String
  remote : Remote
  done : Bool
  deriving DecidableEq

/-- Embeds the skip-completed loop of `main` (lines 591-594): advance `idx`
past sorts already in `completedSorts`. -/
def skipCompletedAux (completed : List String) : Nat → Nat → Nat
  | 0, idx => idx
  | f+1, idx =>
    if idx < SORTS.length && completed.contains (SORTS.getD idx "") then
      skipCompletedAux completed f (idx + 1)
    else idx

/-- The skip-completed loop with enough fuel for the four sorts. -/
def skipCompleted (completed : List String) (idx : Nat) : Nat :=
  skipCompletedAux completed 8 idx

/-- The body of one session's `while (running)` loop (lines 585-649), for the
all-sorts-selected configuration (`activeSorts = SORTS`, which is what both
the resume paths and the default modal selection produce).  Completion clears
the URL parameters (`updateUrlState(false, 0)`, lines 601, 631) and stops.
`runSort` (lines 438-481) on a sort the page is not positioned at navigates
(`gotoSort`), which reloads the page and ends the session with the cursor
parameters preserved (lines 208-213).  On the matching sort it either
processes every page (falsy return, no completion mark) or finds no comments
and returns true, whereupon `main` records completion and persists
`SORTS.indexOf(sort) + 1` as the sort index (lines 614-621). -/
def sessionLoop : Nat → Nat → List String → SysState → SysState
  | 0, _, _, s => s
  | fuel+1, idx, completed, s =>
    let idx := skipCompleted completed idx
    if SORTS.length ≤ idx then
      { s with urlRunning := false, urlIdx := 0, done := true }
    else
      let sort := SORTS.getD idx ""
      if s.urlSort ≠ sort then
        { s with urlSort := sort }
      else if s.remote.has sort then
        sessionLoop fuel idx completed { s with remote := s.remote.clear sort }
      else
        sessionLoop fuel (idx + 1) (completed ++ [sort])
          { s with urlIdx := SORTS.indexOf sort + 1 }

/-- One session: the script loads, auto-resumes when the running parameter is
set (lines 954-966, with all sorts selected), reconstructs the starting index
from the persisted sort index (lines 504-527) and the completed prefix
(lines 579-583), then runs the main loop until navigation or completion. -/
def session (s : SysState) : SysState :=
  if s.urlRunning then
    let idx0 := resumeIdxFromUrl SORTS s.urlIdx
    sessionLoop 12 idx0 (SORTS.take idx0) s
  else s

/-- The initial system state of a fresh run: the operator starts on the
default "new" listing with every sort still holding comments; the modal start
writes `updateUrlState(true, 0)` before `main` runs (lines 874-892). -/
def sysInit : SysState :=
  { urlRunning := true, urlIdx := 0, urlSort := "new"
    remote := { hasNew := true, hasHot := true, hasTop := true, hasControversial := true }
    done := false }

/-- The state after the first session: "new" fully processed and completed,
sort index 1 persisted, navigation to "hot" in flight. -/
def pingState1 : SysState :=
  { urlRunning := true, urlIdx := 1, urlSort := "hot"
    remote := { hasNew := false, hasHot := true, hasTop := true, hasControversial := true }
    done := false }

/-- The state after the second session: the resume logic mapped the persisted
index 1 back to sort "new", and the controller navigated back to it. -/
def pingState2 : SysState :=
  { urlRunning := true, urlIdx := 1, urlSort := "new"
    remote := { hasNew := false, hasHot := true, hasTop := true, hasControversial := true }
    done := false }

/-! ## Start/Stop control (lines 900-946) -/

/-- The control-surface state the button click handler touches: the mutable
`running` flag, the URL parameters, the button label, whether the sort
selection modal was opened, and whether `main()` was invoked. -/
structure UiState where
  running : Bool
  url : UrlParams
  btnLabel : String
  modalOpen : Bool
  mainInvoked : Bool
  deriving DecidableEq

/-- Embeds `btn.onclick` (lines 923-946): toggle `running`; when now running,
either resume immediately (URL running parameter set) or open the sort
selection modal; when now stopped, clear the URL parameters and reset the
button label. -/
def btnOnClick (s : UiState) : UiState :=
  let running := !s.running
  if running then
    if getRunningStateFromUrl s.url then
      { s with running := running, btnLabel := "Stop Deleting", mainInvoked := true }
    else
      { s with running := running, modalOpen := true }
  else
    { s with running := running, url := updateUrlState false 0 s.url
             btnLabel := "Start Deleting" }

/-- An idle control state: not running, no persisted cursor. -/
def idleUiState : UiState :=
  { running := false, url := { runningParam := none, sortIndexParam := none }
    btnLabel := "Start Deleting", modalOpen := false, mainInvoked := false }

/-- A running control state with the cursor persisted at sort index 1. -/
def runningUiState : UiState :=
  { running := true, url := updateUrlState true 1 ⟨none, none⟩
    btnLabel := "Stop Deleting", modalOpen := false, mainInvoked := true }

/-- The rate-limit state after the governor, starting from the initial
globals, observes a 429 at time 0 ms and a second 429 at time 1000 ms. -/
def afterTwo429 : RateLimitState :=
  onFetch429 1000 (onFetch429 0 initialRateLimitState)

/-! ## Helper lemmas -/

/-- The multiplier update of each fetch-wrapper branch preserves
`1 ≤ multiplier`. -/
theorem multiplier_ge_one_applySignal (s : RateLimitState)
    (h : 1 ≤ s.rateLimitMultiplier) (sig : FetchSignal) :
    1 ≤ (applySignal s sig).rateLimitMultiplier := by
  cases sig with
  | throttled now =>
    simp only [applySignal, onFetch429]
    exact le_min (by linarith) (by decide)
  | success =>
    simp only [applySignal, onFetchOther]
    split
    · exact le_refl 1
    · exact h

/-- `1 ≤ multiplier` is preserved along any sequence of observed fetch
responses. -/
theorem multiplier_ge_one_foldl (sigs : List FetchSignal) (s : RateLimitState)
    (h : 1 ≤ s.rateLimitMultiplier) :
    1 ≤ (sigs.foldl applySignal s).rateLimitMultiplier := by
  induction sigs generalizing s with
  | nil => exact h
  | cons a t ih => exact ih _ (multiplier_ge_one_applySignal s h a)

/-- The draw `rand a b r` lies in `[a, b]` whenever `a ≤ b`. -/
theorem rand_mem_range (a b r : Nat) (h : a ≤ b) :
    a ≤ rand a b r ∧ rand a b r ≤ b := by
  unfold rand
  have hlt : r % (b - a + 1) < b - a + 1 := Nat.mod_lt _ (by omega)
  omega

/-- Every cooldown the `deleteComment` retry loop records lies in the
`rand(5000, 30000)` range. -/
theorem deleteCommentAux_cooldowns (running : Nat → Bool) (env : Nat → AttemptEnv)
    (fuel : Nat) :
    ∀ (n : Nat) (acc : List Nat), (∀ c ∈ acc, 5000 ≤ c ∧ c ≤ 30000) →
      ∀ c ∈ (deleteCommentAux running env fuel n acc).cooldowns,
        5000 ≤ c ∧ c ≤ 30000 := by
  induction fuel with
  | zero =>
    intro n acc hacc c hc
    simp only [deleteCommentAux] at hc
    exact hacc c (List.mem_reverse.mp hc)
  | succ fuel ih =>
    intro n acc hacc c hc
    by_cases h : running n = true
    · rcases henv : env n with _ | _ | r
      · simp only [deleteCommentAux, h, if_true, henv] at hc
        exact hacc c (List.mem_reverse.mp hc)
      · simp only [deleteCommentAux, h, if_true, henv] at hc
        exact hacc c (List.mem_reverse.mp hc)
      · simp only [deleteCommentAux, h, if_true, henv] at hc
        refine ih (n + 1) (rand 5000 30000 r :: acc) ?_ c hc
        intro d hd
        rcases List.mem_cons.mp hd with hd | hd
        · rw [hd]; exact rand_mem_range 5000 30000 r (by omega)
        · exact hacc d hd
    · rw [Bool.not_eq_true] at h
      simp only [deleteCommentAux, h, Bool.false_eq_true, if_false] at hc
      exact hacc c (List.mem_reverse.mp hc)

/-- Every iterate of `session` from the fresh start is one of the three
states of the navigation ping-pong. -/
theorem sessionOrbit (n : Nat) :
    session^[n] sysInit = sysInit ∨ session^[n] sysInit = pingState1 ∨
      session^[n] sysInit = pingState2 := by
  induction n with
  | zero => exact Or.inl rfl
  | succ n ih =>
    rw [Function.iterate_succ_apply']
    rcases ih with h | h | h <;> rw [h]
    · exact Or.inr (Or.inl (by decide))
    · exact Or.inr (Or.inr (by decide))
    · exact Or.inr (Or.inl (by decide))

/-! ## Claims -/

/-- C1 counterexample: a delete button inside a comment with no time element,
and one inside a comment whose datetime does not parse, are both KEPT by
`getDeleteButtons` (the date filter returns "do not skip" for them), so the
deletion loop is invoked on them — the claim that ambiguity never results in
deletion is false on the code. -/
theorem c1_counterexample :
    shouldSkipCommentByDate ⟨none⟩ 0 ≠ true ∧
    shouldSkipCommentByDate ⟨some ⟨DatetimeValue.invalid⟩⟩ 0 ≠ true ∧
    (⟨"delete", some ⟨none⟩⟩ : DeleteButton) ∈
      getDeleteButtons
        [⟨"delete", some ⟨none⟩⟩, ⟨"Delete", some ⟨some ⟨DatetimeValue.invalid⟩⟩⟩] 0 ∧
    (⟨"Delete", some ⟨some ⟨DatetimeValue.invalid⟩⟩⟩ : DeleteButton) ∈
      getDeleteButtons
        [⟨"delete", some ⟨none⟩⟩, ⟨"Delete", some ⟨some ⟨DatetimeValue.invalid⟩⟩⟩] 0 := by
  decide

/-- C1 (amended): for every candidate whose creation timestamp cannot be
determined (no time element) or cannot be parsed, the eligibility filter
treats the candidate as NOT protected: `shouldSkipCommentByDate` returns
false and `getDeleteButtons` keeps the candidate among the deletable
candidates, so deletion may be invoked on it (the filter fails open on
ambiguity). -/
theorem c1_amended (buttons : List DeleteButton) (now : Int) (b : DeleteButton)
    (hmem : b ∈ buttons) (htext : textContainsDelete b.textContent = true)
    (c : CommentElement) (hc : b.closestComment = some c)
    (hamb : c.timeElement = none ∨ c.timeElement = some ⟨DatetimeValue.invalid⟩) :
    shouldSkipCommentByDate c now = false ∧ b ∈ getDeleteButtons buttons now := by
  have hskip : shouldSkipCommentByDate c now = false := by
    rcases hamb with h | h <;> simp [shouldSkipCommentByDate, h]
  refine ⟨hskip, ?_⟩
  unfold getDeleteButtons
  refine List.mem_filter.mpr ⟨List.mem_filter.mpr ⟨hmem, htext⟩, ?_⟩
  simp [hc, hskip]

/-- C1 witness: the amended theorem at a concrete button whose comment has no
time element. -/
theorem c1_witness :
    shouldSkipCommentByDate ⟨none⟩ 0 = false ∧
    (⟨"delete", some ⟨none⟩⟩ : DeleteButton) ∈
      getDeleteButtons [⟨"delete", some ⟨none⟩⟩] 0 :=
  c1_amended [⟨"delete", some ⟨none⟩⟩] 0 ⟨"delete", some ⟨none⟩⟩ (by decide)
    (by decide) ⟨none⟩ rfl (Or.inl rfl)

/-- C2: for every candidate with a parseable creation timestamp, the
eligibility filter marks it protected (skipped) if and only if its creation
time exceeds `now` minus the preserve window of `DAYS_TO_PRESERVE` days. -/
theorem c2_protected_iff (c : CommentElement) (now ms : Int)
    (h : c.timeElement = some ⟨DatetimeValue.valid ms⟩) :
    (shouldSkipCommentByDate c now = true ↔
      now - DAYS_TO_PRESERVE * MS_PER_DAY < ms) := by
  simp [shouldSkipCommentByDate, h]

/-- C2 witness: a comment created at 1 ms with the clock at 0 ms is inside
the preserve window and is skipped. -/
theorem c2_witness :
    shouldSkipCommentByDate ⟨some ⟨DatetimeValue.valid 1⟩⟩ 0 = true :=
  (c2_protected_iff ⟨some ⟨DatetimeValue.valid 1⟩⟩ 0 1 rfl).mpr (by decide)

/-- C3: the rate-limit multiplier is at least 1 after any sequence of
observed fetch responses; each 429 observation updates it to
`min(multiplier * 2, RATE_LIMIT_MAX / BASE_RATE_LIMIT_WAIT)`; a 429 strictly
increases a below-cap multiplier and never exceeds the cap; and any non-429
response resets it to 1. -/
theorem c3_backoff_invariants :
    (∀ sigs : List FetchSignal, 1 ≤ (applySignals sigs).rateLimitMultiplier) ∧
    (∀ (s : RateLimitState) (now : Int),
      (onFetch429 now s).rateLimitMultiplier =
        min (s.rateLimitMultiplier * 2) (RATE_LIMIT_MAX / BASE_RATE_LIMIT_WAIT)) ∧
    (∀ (s : RateLimitState) (now : Int), 1 ≤ s.rateLimitMultiplier →
      s.rateLimitMultiplier < RATE_LIMIT_MAX / BASE_RATE_LIMIT_WAIT →
      s.rateLimitMultiplier < (onFetch429 now s).rateLimitMultiplier) ∧
    (∀ (s : RateLimitState) (now : Int),
      (onFetch429 now s).rateLimitMultiplier ≤ RATE_LIMIT_MAX / BASE_RATE_LIMIT_WAIT) ∧
    (∀ s : RateLimitState, 1 ≤ s.rateLimitMultiplier →
      (onFetchOther s).rateLimitMultiplier = 1) := by
  refine ⟨fun sigs => multiplier_ge_one_foldl sigs _ (by decide),
    fun s now => rfl, fun s now h1 h2 => ?_, fun s now => min_le_right _ _,
    fun s h => ?_⟩
  · exact lt_min (by linarith) h2
  · unfold onFetchOther
    split
    · rfl
    · next hn => exact le_antisymm (not_lt.mp hn) h

/-- C3 witness: the invariants instantiated on concrete states and signal
sequences. -/
theorem c3_witness :
    1 ≤ (applySignals [FetchSignal.throttled 0, FetchSignal.success]).rateLimitMultiplier ∧
    (onFetch429 0 initialRateLimitState).rateLimitMultiplier =
      min (initialRateLimitState.rateLimitMultiplier * 2)
        (RATE_LIMIT_MAX / BASE_RATE_LIMIT_WAIT) ∧
    initialRateLimitState.rateLimitMultiplier <
      (onFetch429 5 initialRateLimitState).rateLimitMultiplier ∧
    (onFetch429 5 initialRateLimitState).rateLimitMultiplier ≤
      RATE_LIMIT_MAX / BASE_RATE_LIMIT_WAIT ∧
    (onFetchOther (onFetch429 5 initialRateLimitState)).rateLimitMultiplier = 1 :=
  ⟨c3_backoff_invariants.1 _,
   c3_backoff_invariants.2.1 _ 0,
   c3_backoff_invariants.2.2.1 _ 5 (by decide) (by decide),
   c3_backoff_invariants.2.2.2.1 _ 5,
   c3_backoff_invariants.2.2.2.2 _ (by decide)⟩

/-- C4 counterexample: after two 429 signals at 0 ms and 1000 ms starting
from multiplier 1, the 429 handler logged a 120000 ms wait for the second
signal, but `isRateLimited` still reports rate-limited 120000 ms after the
second signal (the enforcement recomputes the wait from the already-doubled
multiplier 4), only clearing at 240000 ms — the claimed effective wait of
120000 ms is false on the code. -/
theorem c4_counterexample :
    waitLoggedOn429 (onFetch429 0 initialRateLimitState) = 120000 ∧
    afterTwo429.rateLimitMultiplier = 4 ∧
    (isRateLimited (1000 + 120000) afterTwo429).1 ≠ false ∧
    (isRateLimited (1000 + 240000) afterTwo429).1 = false := by
  decide

/-- C4 (amended): with multiplier 1 and two throttling signals 1 second
apart at `baseWait = 60000` ms, the effective wait enforced after the second
signal is `min(60000 * 4, maxWait) = 240000` ms measured from the second
signal's timestamp (the multiplier is doubled as each signal is recorded, so
enforcement uses 4, not 2; 120000 ms is only the value logged when the
second signal is recorded). -/
theorem c4_amended (t : Int) :
    (1000 ≤ t → t < 1000 + 240000 → (isRateLimited t afterTwo429).1 = true) ∧
    (1000 + 240000 ≤ t → (isRateLimited t afterTwo429).1 = false) := by
  have h : afterTwo429 = ⟨true, 1000, 4⟩ := by decide
  have hmin : min (BASE_RATE_LIMIT_WAIT * (4 : Int)) RATE_LIMIT_MAX = 240000 := by decide
  rw [h]
  simp only [isRateLimited, Bool.not_true, Bool.false_eq_true, if_false, hmin]
  constructor
  · intro h1 h2
    rw [if_neg (by omega)]
  · intro h1
    rw [if_pos (by omega)]

/-- C4 witness: the amended wait bounds evaluated 120000 ms and 240000 ms
after the second signal. -/
theorem c4_witness :
    (isRateLimited 121000 afterTwo429).1 = true ∧
    (isRateLimited 241000 afterTwo429).1 = false :=
  ⟨(c4_amended 121000).1 (by decide) (by decide), (c4_amended 241000).2 (by decide)⟩

/-- C5 counterexample: a running page with one delete button whose deletion
attempt fails (no confirmation), no pagination and no load-more: `processPage`
returns advanced = true although zero deletions were performed and no
pagination was requested — the claimed equivalence is false on the code. -/
theorem c5_counterexample :
    ¬ (((processPage ⟨true, [false], true, false, false⟩).advanced = true) ↔
       ((processPage ⟨true, [false], true, false, false⟩).deletedCount ≥ 1 ∨
        (processPage ⟨true, [false], true, false, false⟩).paginated = true)) := by
  decide

/-- C5 (amended): `processPage` returns advanced = true iff it is running and
either at least one delete button was found (even when every deletion attempt
failed and no pagination occurred) or comments are present and pagination or
load-more is available; in particular any call that performed a deletion or
requested pagination does return advanced = true, but not only those. -/
theorem c5_amended (e : PageEnv) :
    (processPage e).advanced =
      (e.running &&
        (!e.deletes.isEmpty || e.commentsPresent && (e.hasNextBtn || e.hasMore))) ∧
    (((processPage e).deletedCount ≥ 1 ∨ (processPage e).paginated = true) →
      (processPage e).advanced = true) := by
  rcases e with ⟨r, ds, c, nb, m⟩
  cases r <;> cases ds <;> cases c <;> cases nb <;> cases m <;>
    simp [processPage]

/-- C5 witness: the amended implication at a page performing one successful
deletion. -/
theorem c5_witness : (processPage ⟨true, [true], true, false, false⟩).advanced = true :=
  (c5_amended ⟨true, [true], true, false, false⟩).2 (Or.inl (by decide))

/-- C6: on a fresh never-stopped run with every sort holding comments, the
controller never terminates: the first session completes "new" and persists
sort index 1, and from then on the system alternates between two states
(re-entering "new" and navigating toward "hot") forever; the completion
branch is never reached and the "top" and "controversial" partitions are
never processed. -/
theorem c6_never_completes :
    session sysInit = pingState1 ∧ session pingState1 = pingState2 ∧
    session pingState2 = pingState1 ∧
    (∀ n : Nat, (session^[n] sysInit).done = false ∧
      (session^[n] sysInit).remote.hasTop = true ∧
      (session^[n] sysInit).remote.hasControversial = true) := by
  refine ⟨by decide, by decide, by decide, fun n => ?_⟩
  rcases sessionOrbit n with h | h | h <;> rw [h] <;> exact ⟨rfl, rfl, rfl⟩

/-- C7: the persisted cursor round-trips its raw fields (running flag and
saved index), but the resume reconstruction does not: after completing the
first sort "new" the controller persists index `SORTS.indexOf("new") + 1 = 1`
(its in-memory position being 1, i.e. "hot"), yet after a restart the resume
logic maps index 1 back to position 0 — the already-completed sort "new" —
and reconstructs an empty completed set, so the completed partition is
re-processed. -/
theorem c7_resume_mismatch :
    getRunningStateFromUrl (updateUrlState true 1 ⟨none, none⟩) = true ∧
    getSortIndexFromUrl (updateUrlState true 1 ⟨none, none⟩) = 1 ∧
    SORTS.indexOf "new" + 1 = 1 ∧
    resumeIdxFromUrl SORTS (getSortIndexFromUrl (updateUrlState true 1 ⟨none, none⟩)) = 0 ∧
    SORTS.getD 0 "" = "new" ∧
    SORTS.take (resumeIdxFromUrl SORTS 1) = ([] : List String) := by
  decide

/-- C8: a deletion attempt that finds no confirmation affordance returns the
skipped outcome after exactly one attempt with no cooldown (not retried);
every cooldown recorded after an exception lies in the randomized 5-30 second
range; after an exception the loop retries from the start of the protocol
unless the run has been stopped, in which case the stopped outcome is
returned. -/
theorem c8_executor_protocol :
    (∀ (running : Nat → Bool) (env : Nat → AttemptEnv) (fuel : Nat),
      running 0 = true → env 0 = AttemptEnv.noConfirm →
      deleteComment running env (fuel + 1) =
        ⟨false, DeleteExit.skippedNoConfirmation, 1, []⟩) ∧
    (∀ (running : Nat → Bool) (env : Nat → AttemptEnv) (fuel : Nat),
      ∀ c ∈ (deleteComment running env fuel).cooldowns, 5000 ≤ c ∧ c ≤ 30000) ∧
    (∀ (running : Nat → Bool) (env : Nat → AttemptEnv) (fuel : Nat) (r : Nat),
      running 0 = true → env 0 = AttemptEnv.err r → running 1 = false →
      deleteComment running env (fuel + 2) =
        ⟨false, DeleteExit.stopped, 1, [rand 5000 30000 r]⟩) ∧
    (∀ (running : Nat → Bool) (env : Nat → AttemptEnv) (fuel : Nat) (r : Nat),
      running 0 = true → env 0 = AttemptEnv.err r → running 1 = true →
      env 1 = AttemptEnv.ok →
      deleteComment running env (fuel + 2) =
        ⟨true, DeleteExit.deleted, 2, [rand 5000 30000 r]⟩) := by
  refine ⟨?_, ?_, ?_, ?_⟩
  · intro running env fuel h0 he
    simp [deleteComment, deleteCommentAux, h0, he]
  · intro running env fuel c hc
    exact deleteCommentAux_cooldowns running env fuel 0 []
      (fun d hd => absurd hd (List.not_mem_nil d)) c hc
  · intro running env fuel r h0 he h1
    simp [deleteComment, deleteCommentAux, h0, he, h1]
  · intro running env fuel r h0 he h1 he1
    simp [deleteComment, deleteCommentAux, h0, he, h1, he1]

/-- C8 witness: the protocol properties at concrete attempt environments. -/
theorem c8_witness :
    deleteComment (fun _ => true) (fun _ => AttemptEnv.noConfirm) 1 =
      ⟨false, DeleteExit.skippedNoConfirmation, 1, []⟩ ∧
    (5000 ≤ rand 5000 30000 7 ∧ rand 5000 30000 7 ≤ 30000) ∧
    deleteComment (fun n => decide (n = 0)) (fun _ => AttemptEnv.err 7) 2 =
      ⟨false, DeleteExit.stopped, 1, [rand 5000 30000 7]⟩ ∧
    deleteComment (fun _ => true)
        (fun n => if n = 0 then AttemptEnv.err 7 else AttemptEnv.ok) 2 =
      ⟨true, DeleteExit.deleted, 2, [rand 5000 30000 7]⟩ :=
  ⟨c8_executor_protocol.1 _ _ 0 rfl rfl,
   c8_executor_protocol.2.1 (fun _ => true) (fun _ => AttemptEnv.err 7) 1
     (rand 5000 30000 7) (by decide),
   c8_executor_protocol.2.2.1 _ _ 0 7 rfl rfl rfl,
   c8_executor_protocol.2.2.2 _ _ 0 7 rfl rfl rfl rfl⟩

/-- C9 counterexample: clicking the control while running = false is not a
no-op: the handler is a toggle, so the click flips the state to running and
opens the start flow — the claimed idempotence of stop is false on the code
(there is no stop invocation that leaves an idle state unchanged). -/
theorem c9_counterexample :
    (btnOnClick idleUiState).running = true ∧ btnOnClick idleUiState ≠ idleUiState := by
  decide

/-- C9 (amended): the control is a toggle, so stop can only be invoked while
running = true; it then sets running = false, removes both persisted cursor
parameters, and every suspension-point check observes the cleared flag and
halts (`processPage` returns no-progress immediately and the `deleteComment`
loop exits with the stopped outcome, zero further attempts); clicking while
running = false instead toggles the state to running. -/
theorem c9_amended :
    (∀ s : UiState, s.running = true →
      (btnOnClick s).running = false ∧
      (btnOnClick s).url.runningParam = none ∧
      (btnOnClick s).url.sortIndexParam = none) ∧
    (∀ s : UiState, s.running = false → (btnOnClick s).running = true) ∧
    (∀ e : PageEnv, e.running = false → processPage e = ⟨false, 0, false⟩) ∧
    (∀ (env : Nat → AttemptEnv) (fuel : Nat),
      deleteComment (fun _ => false) env (fuel + 1) =
        ⟨false, DeleteExit.stopped, 0, []⟩) := by
  refine ⟨?_, ?_, ?_, ?_⟩
  · intro s h
    simp [btnOnClick, h, updateUrlState]
  · intro s h
    simp only [btnOnClick, h, Bool.not_false, if_true]
    split <;> rfl
  · intro e h
    simp [processPage, h]
  · intro env fuel
    simp [deleteComment, deleteCommentAux]

/-- C9 witness: the amended stop behavior at concrete control states. -/
theorem c9_witness :
    ((btnOnClick runningUiState).running = false ∧
     (btnOnClick runningUiState).url.runningParam = none ∧
     (btnOnClick runningUiState).url.sortIndexParam = none) ∧
    (btnOnClick idleUiState).running = true ∧
    processPage ⟨false, [true], true, true, true⟩ = ⟨false, 0, false⟩ ∧
    deleteComment (fun _ => false) (fun _ => AttemptEnv.ok) 1 =
      ⟨false, DeleteExit.stopped, 0, []⟩ :=
  ⟨c9_amended.1 runningUiState rfl, c9_amended.2.1 idleUiState rfl,
   c9_amended.2.2.1 _ rfl, c9_amended.2.2.2 (fun _ => AttemptEnv.ok) 0⟩

/-- C10: a delete button whose enclosing comment element cannot be located
(`closest` returns nothing) is included among the deletable candidates by
`getDeleteButtons`, so the date-based protection filter is never applied to
it. -/
theorem c10_no_container_included (buttons : List DeleteButton) (now : Int)
    (b : DeleteButton) (hmem : b ∈ buttons)
    (htext : textContainsDelete b.textContent = true)
    (hnone : b.closestComment = none) :
    b ∈ getDeleteButtons buttons now := by
  unfold getDeleteButtons
  refine List.mem_filter.mpr ⟨List.mem_filter.mpr ⟨hmem, htext⟩, ?_⟩
  simp [hnone]

/-- C10 witness: a concrete delete button with no locatable comment container
is kept. -/
theorem c10_witness :
    (⟨"delete", none⟩ : DeleteButton) ∈ getDeleteButtons [⟨"delete", none⟩] 0 :=
  c10_no_container_included [⟨"delete", none⟩] 0 ⟨"delete", none⟩ (by decide)
    (by decide) rfl
